import Mathlib

/-!
Shallow embedding of the Tohpitoh medical-records backend
(`users/models.py`, `users/serializers.py`, `users/views.py`).

Modelling conventions:
* Database rows are Lean structures; the persistent state is a `DB` record of
  row lists.  Django querysets `filter`/`first`/`get` become `List.filter` /
  `List.find?` (ordering clauses `order_by` are dropped: no claim depends on
  result order).
* Time is a `Nat` tick counter; `timezone.now()` becomes an explicit `now`
  argument, and `timedelta(days=d)` becomes adding `d` ticks.
* Each view action becomes a pure function `DB → args → DB × Outcome`; the
  returned `DB` is the post-state (unchanged whenever the Python code performs
  no ORM write on that path).
* Fields irrelevant to every claim (password hashes, phone, gender, profile
  tables, file storage mechanics) are omitted; documents are represented by
  their reference string.
-/

namespace Tohpitoh

/-- `User.TypeRole` (models.py). -/
inductive Role
  | patient
  | medecin
  | admin
  | laboratoire
deriving DecidableEq, Repr

/-- `User` (models.py): identity with unique mail, role and activation flag.
`is_active` has model default `True` (models.py line 65). -/
structure User where
  id : Nat
  userMail : String
  userName : String
  userRole : Role
  is_active : Bool
deriving DecidableEq, Repr

/-- `AccessAuthorization` (models.py): consent grant linking a patient to a
professional, with `unique_together ('patient', 'professional')`. -/
structure AccessAuthorization where
  id : Nat
  patient : Nat
  professional : Nat
  granted_at : Nat
  expires_at : Option Nat
  is_active : Bool
  is_emergency : Bool
deriving DecidableEq, Repr

/-- `AccessAuthorization.is_valid` (models.py lines 162-168):
inactive grants are invalid; a set expiry strictly before `now` is invalid;
otherwise valid. -/
def AccessAuthorization.is_valid (a : AccessAuthorization) (now : Nat) : Bool :=
  if !a.is_active then false
  else
    match a.expires_at with
    | some t => if t < now then false else true
    | none => true

/-- The deny reasons named by the access-control contract. -/
inductive DenyCause
  | noGrant
  | inactive
  | expired
deriving DecidableEq, Repr

/-- Which early-return branch of `is_valid` fires: `some .inactive` when the
`not self.is_active` return triggers, `some .expired` when the expiry return
triggers, `none` when the grant is valid. -/
def AccessAuthorization.invalidCause (a : AccessAuthorization) (now : Nat) :
    Option DenyCause :=
  if !a.is_active then some .inactive
  else
    match a.expires_at with
    | some t => if t < now then some .expired else none
    | none => none

/-- `ClinicalNote` (models.py): consultation note owned by a patient,
authored by a doctor. -/
structure ClinicalNote where
  id : Nat
  patient : Nat
  doctor : Nat
  observation : String
  created_at : Nat
deriving DecidableEq, Repr

/-- `Prescription` (models.py). -/
structure Prescription where
  id : Nat
  patient : Nat
  doctor : Nat
  medication_details : String
  created_at : Nat
deriving DecidableEq, Repr

/-- `LabTest.TestStatus` (models.py lines 215-219). -/
inductive TestStatus
  | pending
  | in_progress
  | completed
  | canceled
deriving DecidableEq, Repr

/-- The stored string of each `TestStatus` choice (models.py). -/
def TestStatus.choiceValue : TestStatus → String
  | .pending => "En attente"
  | .in_progress => "En cours"
  | .completed => "Terminé"
  | .canceled => "Annulé"

/-- Membership test of `set_status`'s `new_status` against
`LabTest.TestStatus.choices` (views.py line 366), returning the matched
status. -/
def statusOfString (s : String) : Option TestStatus :=
  if s = "En attente" then some .pending
  else if s = "En cours" then some .in_progress
  else if s = "Terminé" then some .completed
  else if s = "Annulé" then some .canceled
  else none

/-- `LabTest` (models.py): a prescribed laboratory examination. -/
structure LabTest where
  id : Nat
  patient : Nat
  prescribed_by : Option Nat
  performed_by : Option Nat
  test_name : String
  status : TestStatus
  result_document : Option String
  result_uploaded_at : Option Nat
  doctor_interpretation : Option String
  interpreted_by : Option Nat
  created_at : Nat
deriving DecidableEq, Repr

/-- `AuditLog` (models.py lines 256-266): append-only record of critical
actions. -/
structure AuditLog where
  id : Nat
  user : Option Nat
  action : String
  details : Option String
  timestamp : Nat
deriving DecidableEq, Repr

/-- The persistent database state. -/
structure DB where
  users : List User
  auths : List AccessAuthorization
  notes : List ClinicalNote
  prescriptions : List Prescription
  labTests : List LabTest
  auditLogs : List AuditLog
deriving DecidableEq, Repr

/-- The row predicate of the `(patient, professional)` consent lookups. -/
def pairPred (patientId professionalId : Nat) (a : AccessAuthorization) : Bool :=
  a.patient == patientId && a.professional == professionalId

/-- Fresh primary key for a new `AccessAuthorization` row. -/
def freshAuthId (db : DB) : Nat :=
  (db.auths.map (·.id)).foldr max 0 + 1

/-- Fresh primary key for a new `ClinicalNote` row. -/
def freshNoteId (db : DB) : Nat :=
  (db.notes.map (·.id)).foldr max 0 + 1

/-- Fresh primary key for a new `User` row. -/
def freshUserId (db : DB) : Nat :=
  (db.users.map (·.id)).foldr max 0 + 1

/-- Kernel-computable lower-casing, character by character: the model of
Python's `str.lower()` and of the `userMail__iexact` lookup normalisation. -/
def strLower (s : String) : String := ⟨s.data.map Char.toLower⟩

/-- `UserManager.create_user` (models.py lines 18-28): builds and saves a
`User` from the given fields.  `is_active` is not among the passed fields in
any registration serializer, so it keeps the model default `True`. -/
def create_user (db : DB) (userMail userName : String) (userRole : Role) :
    DB × User :=
  let u : User :=
    { id := freshUserId db, userMail := userMail, userName := userName,
      userRole := userRole, is_active := true }
  ({ db with users := db.users ++ [u] }, u)

/-- `PatientRegisterSerializer.create` (serializers.py lines 133-159):
lower-cases the mail and calls `create_user`; `validate` forces
`userRole = PATIENT`.  (The `PatientProfile` row is not modelled: no claim
mentions profiles.) -/
def patientRegister (db : DB) (userMail userName : String) : DB × User :=
  create_user db (strLower userMail) userName Role.patient

/-- `MedecinRegisterSerializer.create` (serializers.py lines 196-213):
lower-cases the mail and calls `create_user`; `validate` forces
`userRole = MEDECIN`.  (The `MedecinProfile` row is not modelled.) -/
def medecinRegister (db : DB) (userMail userName : String) : DB × User :=
  create_user db (strLower userMail) userName Role.medecin

/-- `LaboRegisterSerializer.create` (serializers.py lines 168-183):
lower-cases the mail and calls `create_user`; `validate` forces
`userRole = LABORATOIRE`.  (The `LaboProfile` row is not modelled.) -/
def laboRegister (db : DB) (userMail userName : String) : DB × User :=
  create_user db (strLower userMail) userName Role.laboratoire

/-- Outcomes of `AdminControlViewSet.validate_professional`. -/
inductive ValidateOutcome
  | userNotFound
  | badRequest
  | activated (u : User)
deriving DecidableEq, Repr

/-- `AdminControlViewSet.validate_professional` (views.py lines 410-418):
`get_object_or_404(User, pk=pk)`, then sets `is_active = True` exactly when
the user is a Doctor/Laboratory and currently inactive. -/
def validate_professional (db : DB) (pk : Nat) : DB × ValidateOutcome :=
  match db.users.find? (fun u => u.id == pk) with
  | none => (db, .userNotFound)
  | some user =>
    if (user.userRole == Role.medecin || user.userRole == Role.laboratoire)
        && !user.is_active then
      let user' := { user with is_active := true }
      ({ db with
          users := db.users.map
            (fun u => if u.id == pk then { u with is_active := true } else u) },
        .activated user')
    else (db, .badRequest)

/-- Outcomes of `AccessControlViewSet.grant_access`. -/
inductive GrantOutcome
  | invalidRole
  | professionalNotFound
  | granted (auth : AccessAuthorization)
deriving DecidableEq, Repr

/-- The row created by `update_or_create` in `grant_access` when the
`(patient, professional)` pair has no row yet: model field defaults give
`is_active` (overridden to true by `defaults` anyway) and
`is_emergency = False`. -/
def freshGrantRow (db : DB) (patientId professionalId granted expires : Nat) :
    AccessAuthorization :=
  { id := freshAuthId db, patient := patientId, professional := professionalId,
    granted_at := granted, expires_at := some expires, is_active := true,
    is_emergency := false }

/-- The row update of `update_or_create`'s `defaults` in `grant_access`:
rows matching the `(patient, professional)` key are re-activated with the
new expiry; the other fields — `is_emergency` in particular — are kept. -/
def grantUpdate (patientId professionalId expires_at : Nat)
    (b : AccessAuthorization) : AccessAuthorization :=
  if pairPred patientId professionalId b then
    { b with is_active := true, expires_at := some expires_at }
  else b

/-- `AccessControlViewSet.grant_access` (views.py lines 190-216): resolves
the professional by case-insensitive mail, rejects non-professional roles,
then `update_or_create` on `(patient, professional)` with defaults
`is_active = True`, `expires_at = now + expiration_days`. -/
def grant_access (db : DB) (patientId : Nat) (professional_email : String)
    (expiration_days now : Nat) : DB × GrantOutcome :=
  match db.users.find?
      (fun u => strLower u.userMail == strLower professional_email) with
  | none => (db, .professionalNotFound)
  | some professional =>
    if !(professional.userRole == Role.medecin
        || professional.userRole == Role.laboratoire) then
      (db, .invalidRole)
    else
      let expires_at := now + expiration_days
      match db.auths.find? (pairPred patientId professional.id) with
      | some a =>
        ({ db with
            auths := db.auths.map
              (grantUpdate patientId professional.id expires_at) },
          .granted { a with is_active := true, expires_at := some expires_at })
      | none =>
        ({ db with
            auths := db.auths
              ++ [freshGrantRow db patientId professional.id now expires_at] },
          .granted (freshGrantRow db patientId professional.id now expires_at))

/-- Outcomes of `AccessControlViewSet.revoke_access`. -/
inductive RevokeOutcome
  | notFound
  | revoked
deriving DecidableEq, Repr

/-- The row update of `auth.save()` in `revoke_access`: the row with the
fetched primary key gets `is_active = False`. -/
def revokeUpdate (pk : Nat) (b : AccessAuthorization) : AccessAuthorization :=
  if b.id == pk then { b with is_active := false } else b

/-- `AccessControlViewSet.revoke_access` (views.py lines 219-229): fetches
the authorization by `(pk, patient=request.user, is_active=True)` — absence,
patient mismatch and already-revoked all yield the same 404 — then saves it
with `is_active = False` (the row is never deleted). -/
def revoke_access (db : DB) (patientId pk : Nat) : DB × RevokeOutcome :=
  match db.auths.find?
      (fun a => a.id == pk && a.patient == patientId && a.is_active) with
  | none => (db, .notFound)
  | some _ =>
    ({ db with auths := db.auths.map (revokeUpdate pk) }, .revoked)

/-- The aggregated patient record (notes + prescriptions + lab results). -/
structure DEP where
  clinical_notes : List ClinicalNote
  prescriptions : List Prescription
  lab_results : List LabTest
deriving DecidableEq, Repr

/-- `DEPPatientViewSet.consult_dep` (views.py lines 145-167): the patient's
own aggregation; lab results are restricted to `status = COMPLETED`. -/
def consult_dep (db : DB) (patientId : Nat) : DEP :=
  { clinical_notes := db.notes.filter (fun n => n.patient == patientId),
    prescriptions := db.prescriptions.filter (fun p => p.patient == patientId),
    lab_results := db.labTests.filter
      (fun t => t.patient == patientId && t.status == TestStatus.completed) }

/-- Outcomes of `AccessControlViewSet.check_access_and_consult`. -/
inductive CheckOutcome
  | badRequest
  | patientNotFound
  | allowed (patient_name : String) (dep : DEP)
  | denied
deriving DecidableEq, Repr

/-- `AccessControlViewSet.check_access_and_consult` (views.py lines 232-261):
requires `patient_id`, resolves the patient, takes the first
`(patient, professional)` authorization, and returns the aggregated DEP when
it exists and `is_valid()`; otherwise a single undifferentiated 403.  No ORM
write happens on any path, so the post-state equals the input state. -/
def check_access_and_consult (db : DB) (professionalId : Nat)
    (patient_id : Option Nat) (now : Nat) : DB × CheckOutcome :=
  match patient_id with
  | none => (db, .badRequest)
  | some pid =>
    match db.users.find?
        (fun u => u.id == pid && u.userRole == Role.patient) with
    | none => (db, .patientNotFound)
    | some patient =>
      match db.auths.find? (pairPred patient.id professionalId) with
      | some auth =>
        if auth.is_valid now then
          (db, .allowed patient.userName
            { clinical_notes :=
                db.notes.filter (fun n => n.patient == patient.id),
              prescriptions :=
                db.prescriptions.filter (fun p => p.patient == patient.id),
              lab_results :=
                db.labTests.filter (fun t => t.patient == patient.id) })
        else (db, .denied)
      | none => (db, .denied)

/-- Outcomes of `DoctorClinicalViewSet.add_note`. -/
inductive AddNoteOutcome
  | validationFailed
  | missingPatient
  | patientNotFound
  | forbidden
  | created (note : ClinicalNote)
deriving DecidableEq, Repr

/-- The write gate of `add_note` (views.py lines 297-298): first active
authorization for the pair, if any, and its `is_valid()`. -/
def writeGateAllows (db : DB) (patientId professionalId now : Nat) : Bool :=
  match db.auths.find?
      (fun a => pairPred patientId professionalId a && a.is_active) with
  | some auth => auth.is_valid now
  | none => false

/-- `DoctorClinicalViewSet.add_note` (views.py lines 282-303): serializer
validation (a `ClinicalNote` requires a non-blank `observation`), presence of
the `patient` field, patient lookup, the consent write gate, then creation of
one note attributed to the acting doctor and the patient. -/
def add_note (db : DB) (doctorId : Nat) (patient_field : Option Nat)
    (observation : String) (now : Nat) : DB × AddNoteOutcome :=
  if observation == "" then (db, .validationFailed)
  else
    match patient_field with
    | none => (db, .missingPatient)
    | some pid =>
      match db.users.find?
          (fun u => u.id == pid && u.userRole == Role.patient) with
      | none => (db, .patientNotFound)
      | some patient =>
        if writeGateAllows db patient.id doctorId now then
          let note : ClinicalNote :=
            { id := freshNoteId db, patient := patient.id, doctor := doctorId,
              observation := observation, created_at := now }
          ({ db with notes := db.notes ++ [note] }, .created note)
        else (db, .forbidden)

/-- Outcomes of `LabTestViewSet.set_status`. -/
inductive SetStatusOutcome
  | testNotFound
  | forbidden
  | invalidStatus
  | updated (t : LabTest)
deriving DecidableEq, Repr

/-- The ownership guard shared by `set_status` and `upload_result`
(views.py lines 362 and 379): `lab_test.performed_by` is set and differs
from the requesting laboratory. -/
def ownedByOther (t : LabTest) (laboId : Nat) : Bool :=
  match t.performed_by with
  | some owner => owner != laboId
  | none => false

/-- `LabTestViewSet.set_status` (views.py lines 357-371): fetches the test,
denies a laboratory other than the claimed owner, validates the status
string against the choices, then saves the new status.  No check on the
prior status is performed. -/
def set_status (db : DB) (laboId pk : Nat) (new_status : String) :
    DB × SetStatusOutcome :=
  match db.labTests.find? (fun t => t.id == pk) with
  | none => (db, .testNotFound)
  | some lab_test =>
    if ownedByOther lab_test laboId then (db, .forbidden)
    else
      match statusOfString new_status with
      | none => (db, .invalidStatus)
      | some st =>
        ({ db with
            labTests := db.labTests.map
              (fun t => if t.id == pk then { t with status := st } else t) },
          .updated { lab_test with status := st })

/-- Outcomes of `LabTestViewSet.upload_result`. -/
inductive UploadOutcome
  | testNotFound
  | forbidden
  | validationFailed
  | completedOk (t : LabTest)
deriving DecidableEq, Repr

/-- The saved row of `upload_result`: document reference, upload time,
forced `COMPLETED` status and `performed_by` stamped to the uploader
(views.py lines 385-389). -/
def uploadSave (t : LabTest) (doc : String) (laboId now : Nat) : LabTest :=
  { t with result_document := some doc, result_uploaded_at := some now,
           status := TestStatus.completed, performed_by := some laboId }

/-- `LabTestViewSet.upload_result` (views.py lines 374-390): fetches the
test, denies a laboratory other than the claimed owner, requires a
non-empty result document (`validate_result_document`), then saves with
`status = COMPLETED` and `performed_by = request.user`, regardless of the
prior status. -/
def upload_result (db : DB) (laboId pk : Nat) (result_document : String)
    (now : Nat) : DB × UploadOutcome :=
  match db.labTests.find? (fun t => t.id == pk) with
  | none => (db, .testNotFound)
  | some lab_test =>
    if ownedByOther lab_test laboId then (db, .forbidden)
    else if result_document == "" then (db, .validationFailed)
    else
      ({ db with
          labTests := db.labTests.map
            (fun t =>
              if t.id == pk then uploadSave t result_document laboId now
              else t) },
        .completedOk (uploadSave lab_test result_document laboId now))

/-- The spec's own wording of grant validity, kept separate from the code's
`is_valid` so the two can be compared: valid iff the active flag is true AND
(there is no expiry OR the expiry lies strictly in the future). -/
def specGrantValid (a : AccessAuthorization) (now : Nat) : Bool :=
  a.is_active &&
    match a.expires_at with
    | none => true
    | some t => decide (now < t)

/-! ### Generic list lemmas -/

/-- `find?` commutes with a map that never changes the predicate's verdict. -/
theorem find?_map_comm {α : Type} (g : α → α) (p : α → Bool)
    (h : ∀ a, p (g a) = p a) (l : List α) :
    (l.map g).find? p = (l.find? p).map g := by
  induction l with
  | nil => rfl
  | cons a l ih =>
    cases hpa : p a with
    | true =>
      rw [List.map_cons, List.find?_cons_of_pos _ (by rw [h a, hpa]),
        List.find?_cons_of_pos _ hpa, Option.map_some']
    | false =>
      rw [List.map_cons, List.find?_cons_of_neg _ (by simp [h a, hpa]),
        List.find?_cons_of_neg _ (by simp [hpa]), ih]

/-- `countP` is unchanged by a map that never changes the predicate's
verdict. -/
theorem countP_map_comm {α : Type} (g : α → α) (p : α → Bool)
    (h : ∀ a, p (g a) = p a) (l : List α) :
    (l.map g).countP p = l.countP p := by
  induction l with
  | nil => rfl
  | cons a l ih =>
    cases hpa : p a with
    | true =>
      rw [List.map_cons, List.countP_cons_of_pos _ _ (by rw [h a, hpa]),
        List.countP_cons_of_pos _ _ hpa, ih]
    | false =>
      rw [List.map_cons, List.countP_cons_of_neg _ _ (by simp [h a, hpa]),
        List.countP_cons_of_neg _ _ (by simp [hpa]), ih]

/-- Updating a row through an `if cond then f else id` map never changes the
`pairPred` verdict when `f` preserves the key fields. -/
theorem pairPred_ite_update (p pro : Nat)
    (f : AccessAuthorization → AccessAuthorization)
    (hf : ∀ b, (f b).patient = b.patient ∧ (f b).professional = b.professional)
    (cond : AccessAuthorization → Bool) (b : AccessAuthorization) :
    pairPred p pro (if cond b then f b else b) = pairPred p pro b := by
  by_cases h : cond b <;> simp [h, pairPred, (hf b).1, (hf b).2]

/-- `check_access_and_consult` performs no database write on any path. -/
theorem check_access_and_consult_pure (db : DB) (professionalId : Nat)
    (patient_id : Option Nat) (now : Nat) :
    (check_access_and_consult db professionalId patient_id now).1 = db := by
  cases patient_id with
  | none => rfl
  | some pid =>
    cases hu : db.users.find? (fun u => u.id == pid && u.userRole == Role.patient) with
    | none => simp [check_access_and_consult, hu]
    | some patient =>
      cases ha : db.auths.find? (pairPred patient.id professionalId) with
      | none => simp [check_access_and_consult, hu, ha]
      | some auth =>
        by_cases hv : auth.is_valid now <;>
          simp [check_access_and_consult, hu, ha, hv]

/-! ### Fixtures used by concrete counterexamples and witnesses -/

/-- A patient row used by concrete scenarios. -/
def samplePatient : User :=
  { id := 1, userMail := "pat@x.com", userName := "Pat",
    userRole := .patient, is_active := true }

/-- A doctor row used by concrete scenarios. -/
def sampleDoctor : User :=
  { id := 2, userMail := "doc@x.com", userName := "Doc",
    userRole := .medecin, is_active := true }

/-- A currently valid consent grant from `samplePatient` to `sampleDoctor`. -/
def sampleAuth : AccessAuthorization :=
  { id := 1, patient := 1, professional := 2, granted_at := 0,
    expires_at := some 10, is_active := true, is_emergency := false }

/-- A database with one patient, one doctor and one valid grant. -/
def sampleDb : DB :=
  { users := [samplePatient, sampleDoctor], auths := [sampleAuth],
    notes := [], prescriptions := [], labTests := [], auditLogs := [] }

/-- A lab test already claimed (`performed_by`) by laboratory 5 and already
`Completed`. -/
def claimedCompletedTest : LabTest :=
  { id := 1, patient := 1, prescribed_by := none, performed_by := some 5,
    test_name := "NFS", status := .completed, result_document := none,
    result_uploaded_at := none, doctor_interpretation := none,
    interpreted_by := none, created_at := 0 }

/-- A database holding only `claimedCompletedTest`. -/
def claimedCompletedDb : DB :=
  { users := [], auths := [], notes := [], prescriptions := [],
    labTests := [claimedCompletedTest], auditLogs := [] }

/-- An unclaimed (`performed_by = none`) canceled lab test. -/
def unclaimedTest : LabTest :=
  { id := 1, patient := 1, prescribed_by := none, performed_by := none,
    test_name := "Glycémie", status := .canceled, result_document := none,
    result_uploaded_at := none, doctor_interpretation := none,
    interpreted_by := none, created_at := 0 }

/-- A database holding only `unclaimedTest`. -/
def unclaimedDb : DB :=
  { users := [], auths := [], notes := [], prescriptions := [],
    labTests := [unclaimedTest], auditLogs := [] }

/-! ### Claims -/

/-- C1: the claim says every Allow/Deny outcome of the access check appends
exactly one `AuditLog` entry.  The code never writes the audit log: on any
input the post-state equals the pre-state, and in the concrete scenario both
an Allow decision (doctor 2, valid grant, `now = 5`) and a Deny decision
(same doctor after expiry, `now = 20`) leave the audit log empty instead of
appending one entry. -/
theorem C1_check_appends_no_audit_entry :
    (∀ (db : DB) (professionalId : Nat) (patient_id : Option Nat) (now : Nat),
      (check_access_and_consult db professionalId patient_id now).1.auditLogs
        = db.auditLogs)
    ∧ (check_access_and_consult sampleDb 2 (some 1) 5).2
        = CheckOutcome.allowed "Pat"
            { clinical_notes := [], prescriptions := [], lab_results := [] }
    ∧ (check_access_and_consult sampleDb 2 (some 1) 5).1.auditLogs.length = 0
    ∧ (check_access_and_consult sampleDb 2 (some 1) 20).2 = CheckOutcome.denied
    ∧ (check_access_and_consult sampleDb 2 (some 1) 20).1.auditLogs.length = 0 := by
  refine ⟨fun db professionalId patient_id now => ?_, rfl, rfl, rfl, rfl⟩
  rw [check_access_and_consult_pure]

/-- C2: the claim says professional users (Doctor, Laboratory) are created
with activation flag false.  In the code `User.is_active` defaults to `True`
(models.py line 65) and no registration serializer ever passes the flag, so
doctors and laboratories — exactly like patients — are created active. -/
theorem C2_registration_always_creates_active_users
    (db : DB) (mail name : String) :
    (medecinRegister db mail name).2.is_active = true
    ∧ (laboRegister db mail name).2.is_active = true
    ∧ (patientRegister db mail name).2.is_active = true :=
  ⟨rfl, rfl, rfl⟩

/-- C4 counterexample: at the boundary `expires_at = now` the code's
`is_valid` returns true although the claim's condition — the expiry lies in
the future — fails, so the claimed equivalence is false. -/
theorem C4_counterexample :
    AccessAuthorization.is_valid
      { id := 1, patient := 1, professional := 2, granted_at := 0,
        expires_at := some 5, is_active := true, is_emergency := false } 5
      = true
    ∧ specGrantValid
      { id := 1, patient := 1, professional := 2, granted_at := 0,
        expires_at := some 5, is_active := true, is_emergency := false } 5
      = false := ⟨rfl, by decide⟩

/-- C4 (amended): `is_valid` returns true iff the grant is active AND (it has
no expiry OR the expiry has not yet passed, `now ≤ t`); in particular a grant
whose expiry lies strictly in the past is invalid even when active. -/
theorem C4_is_valid_iff (a : AccessAuthorization) (now : Nat) :
    a.is_valid now = true ↔
      (a.is_active = true ∧ ∀ t, a.expires_at = some t → now ≤ t) := by
  unfold AccessAuthorization.is_valid
  cases ha : a.is_active with
  | false => simp [ha]
  | true =>
    cases he : a.expires_at with
    | none => simp [he]
    | some t =>
      by_cases hlt : t < now
      · simp only [he, hlt, if_true]
        constructor
        · intro h; exact absurd h (by simp)
        · intro h
          have := h.2 t rfl
          omega
      · simp [he, hlt]
        omega

/-- C8 counterexample: `set_status` moves a test whose prior status is
`Completed` back to `Pending`, refuting the claim that transitions happen
only from `Pending`/`InProgress` and never out of `Completed`/`Canceled`. -/
theorem C8_counterexample :
    (set_status claimedCompletedDb 5 1 "En attente").2
      = SetStatusOutcome.updated
          { claimedCompletedTest with status := TestStatus.pending }
    ∧ (set_status claimedCompletedDb 5 1 "En attente").1.labTests
      = [{ claimedCompletedTest with status := TestStatus.pending }] :=
  ⟨rfl, rfl⟩

/-- C8 (amended): `set_status` applies any valid target status from ANY prior
status — including `Completed` and `Canceled`; the only gates are that the
test exists, the requester is not excluded by the ownership guard, and the
status string is a valid choice. -/
theorem C8_set_status_ignores_prior_status (db : DB) (laboId pk : Nat)
    (s : String) (t : LabTest) (st : TestStatus)
    (hfind : db.labTests.find? (fun x => x.id == pk) = some t)
    (hown : ownedByOther t laboId = false)
    (hs : statusOfString s = some st) :
    (set_status db laboId pk s).2
      = SetStatusOutcome.updated { t with status := st }
    ∧ { t with status := st } ∈ (set_status db laboId pk s).1.labTests := by
  have hmem := List.mem_of_find?_eq_some hfind
  have hid := List.find?_some hfind
  refine ⟨by simp [set_status, hfind, hown, hs], ?_⟩
  have himg := List.mem_map_of_mem
    (fun x : LabTest => if x.id == pk then { x with status := st } else x) hmem
  rw [show (fun x : LabTest => if x.id == pk then { x with status := st } else x) t
      = { t with status := st } by simp [hid]] at himg
  simpa [set_status, hfind, hown, hs] using himg

/-- C8 witness: the amended theorem applied to the concrete
`Completed`-to-`Pending` transition by the owning laboratory. -/
theorem C8_set_status_ignores_prior_status_witness :
    (set_status claimedCompletedDb 5 1 "En attente").2
      = SetStatusOutcome.updated
          { claimedCompletedTest with status := TestStatus.pending }
    ∧ { claimedCompletedTest with status := TestStatus.pending }
        ∈ (set_status claimedCompletedDb 5 1 "En attente").1.labTests :=
  C8_set_status_ignores_prior_status claimedCompletedDb 5 1 "En attente"
    claimedCompletedTest TestStatus.pending rfl rfl rfl

/-- C3: an unclaimed test (`performed_by` unset) uploaded to by a laboratory
is forced to `Completed` — whatever its prior status — and stamped with that
laboratory as `performed_by`; once `performed_by` is set, `set_status` and
`upload_result` by any other laboratory are denied and leave the database
unchanged. -/
theorem C3_upload_claims_and_excludes_other_labs (db : DB) (laboId pk : Nat)
    (doc : String) (now : Nat) (t : LabTest)
    (hfind : db.labTests.find? (fun x => x.id == pk) = some t)
    (hdoc : doc ≠ "") :
    (t.performed_by = none →
      (upload_result db laboId pk doc now).2
          = UploadOutcome.completedOk (uploadSave t doc laboId now)
        ∧ uploadSave t doc laboId now
            ∈ (upload_result db laboId pk doc now).1.labTests
        ∧ (uploadSave t doc laboId now).status = TestStatus.completed
        ∧ (uploadSave t doc laboId now).performed_by = some laboId)
    ∧ (∀ other, t.performed_by = some other → other ≠ laboId →
        upload_result db laboId pk doc now = (db, UploadOutcome.forbidden)
        ∧ ∀ s, set_status db laboId pk s = (db, SetStatusOutcome.forbidden)) := by
  have hmem := List.mem_of_find?_eq_some hfind
  have hid := List.find?_some hfind
  have hdoc' : (doc == "") = false := by simp [hdoc]
  constructor
  · intro hnone
    have hguard : ownedByOther t laboId = false := by
      simp [ownedByOther, hnone]
    refine ⟨by simp [upload_result, hfind, hguard, hdoc'], ?_, rfl, rfl⟩
    have himg := List.mem_map_of_mem
      (fun x : LabTest =>
        if x.id == pk then uploadSave x doc laboId now else x) hmem
    rw [show (fun x : LabTest =>
        if x.id == pk then uploadSave x doc laboId now else x) t
        = uploadSave t doc laboId now by simp [hid]] at himg
    simpa [upload_result, hfind, hguard, hdoc'] using himg
  · intro other hsome hne
    have hguard : ownedByOther t laboId = true := by
      simp [ownedByOther, hsome, bne_iff_ne, hne]
    exact ⟨by simp [upload_result, hfind, hguard],
      fun s => by simp [set_status, hfind, hguard]⟩

/-- C3 witness: laboratory 6 uploads to the unclaimed canceled test; the
test is completed and claimed by laboratory 6. -/
theorem C3_upload_claims_and_excludes_other_labs_witness :
    (upload_result unclaimedDb 6 1 "res.pdf" 9).2
      = UploadOutcome.completedOk (uploadSave unclaimedTest "res.pdf" 6 9)
    ∧ uploadSave unclaimedTest "res.pdf" 6 9
        ∈ (upload_result unclaimedDb 6 1 "res.pdf" 9).1.labTests :=
  ⟨((C3_upload_claims_and_excludes_other_labs unclaimedDb 6 1 "res.pdf" 9
      unclaimedTest rfl (by decide)).1 rfl).1,
    ((C3_upload_claims_and_excludes_other_labs unclaimedDb 6 1 "res.pdf" 9
      unclaimedTest rfl (by decide)).1 rfl).2.1⟩

/-- C7: `add_note` on an existing patient with well-formed data is decided by
the consent write gate: when the gate denies, the outcome is 403 and the
database is unchanged (no `ClinicalNote` row); when the gate allows, exactly
one note is appended, attributed to the acting doctor and the patient. -/
theorem C7_add_note_requires_valid_grant (db : DB) (doctorId pid now : Nat)
    (obs : String) (pat : User)
    (hobs : obs ≠ "")
    (hpat : db.users.find? (fun u => u.id == pid && u.userRole == Role.patient)
      = some pat) :
    (writeGateAllows db pat.id doctorId now = false →
      add_note db doctorId (some pid) obs now = (db, AddNoteOutcome.forbidden))
    ∧ (writeGateAllows db pat.id doctorId now = true →
      ∃ note, add_note db doctorId (some pid) obs now
          = ({ db with notes := db.notes ++ [note] }, AddNoteOutcome.created note)
        ∧ note.doctor = doctorId ∧ note.patient = pat.id) := by
  have hobs' : (obs == "") = false := by simp [hobs]
  constructor
  · intro hg
    simp [add_note, hobs', hpat, hg]
  · intro hg
    exact ⟨{ id := freshNoteId db, patient := pat.id, doctor := doctorId,
             observation := obs, created_at := now },
      by simp [add_note, hobs', hpat, hg], rfl, rfl⟩

/-- C7 witness: with the valid sample grant, the doctor's note is created and
attributed to doctor 2 and patient 1. -/
theorem C7_add_note_requires_valid_grant_witness :
    ∃ note, add_note sampleDb 2 (some 1) "Observation" 5
        = ({ sampleDb with notes := sampleDb.notes ++ [note] },
            AddNoteOutcome.created note)
      ∧ note.doctor = 2 ∧ note.patient = samplePatient.id :=
  (C7_add_note_requires_valid_grant sampleDb 2 1 5 "Observation" samplePatient
    (by decide) rfl).2 rfl

/-- C9: `revoke_access` returns 404 exactly when no row matches
`(pk, patient = caller, is_active = True)` — covering nonexistence, patient
mismatch and already-revoked identically; on success it flips the grant's
active flag to false and deletes nothing. -/
theorem C9_revoke_notfound_or_deactivate (db : DB) (patientId pk : Nat) :
    (db.auths.find?
        (fun a => a.id == pk && a.patient == patientId && a.is_active) = none →
      revoke_access db patientId pk = (db, RevokeOutcome.notFound))
    ∧ (∀ a, db.auths.find?
        (fun a => a.id == pk && a.patient == patientId && a.is_active) = some a →
      (revoke_access db patientId pk).2 = RevokeOutcome.revoked
      ∧ { a with is_active := false } ∈ (revoke_access db patientId pk).1.auths
      ∧ (revoke_access db patientId pk).1.auths.length = db.auths.length) := by
  constructor
  · intro h
    simp [revoke_access, h]
  · intro a ha
    have hmem := List.mem_of_find?_eq_some ha
    have hp := List.find?_some ha
    have hid : (a.id == pk) = true := by
      simp only [Bool.and_eq_true] at hp
      exact hp.1.1
    refine ⟨by simp [revoke_access, ha], ?_, by simp [revoke_access, ha]⟩
    have himg := List.mem_map_of_mem (revokeUpdate pk) hmem
    rw [show revokeUpdate pk a = { a with is_active := false } by
      simp [revokeUpdate, hid]] at himg
    simpa [revoke_access, ha] using himg

/-- C9 witness: revoking the sample grant succeeds, keeps the row and turns
its active flag off. -/
theorem C9_revoke_notfound_or_deactivate_witness :
    (revoke_access sampleDb 1 1).2 = RevokeOutcome.revoked
    ∧ { sampleAuth with is_active := false }
        ∈ (revoke_access sampleDb 1 1).1.auths
    ∧ (revoke_access sampleDb 1 1).1.auths.length = sampleDb.auths.length :=
  (C9_revoke_notfound_or_deactivate sampleDb 1 1).2 sampleAuth rfl

/-- A pending lab test for the sample patient, used to separate the two
aggregations. -/
def pendingTest : LabTest :=
  { id := 1, patient := 1, prescribed_by := none, performed_by := none,
    test_name := "ECBU", status := .pending, result_document := none,
    result_uploaded_at := none, doctor_interpretation := none,
    interpreted_by := none, created_at := 0 }

/-- `sampleDb` extended with `pendingTest`. -/
def pendingTestDb : DB :=
  { users := [samplePatient, sampleDoctor], auths := [sampleAuth],
    notes := [], prescriptions := [], labTests := [pendingTest],
    auditLogs := [] }

/-- C10: the professional's allowed aggregation includes the patient's lab
tests of every status, while the patient's own `consult_dep` keeps only
`Completed` ones; a non-completed test therefore lies in the former and not
in the latter, so the two lab-result lists differ. -/
theorem C10_aggregations_differ_on_noncompleted_test (db : DB)
    (proId pid now : Nat) (pat : User) (auth : AccessAuthorization) (t : LabTest)
    (hpat : db.users.find? (fun u => u.id == pid && u.userRole == Role.patient)
      = some pat)
    (hauth : db.auths.find? (pairPred pat.id proId) = some auth)
    (hvalid : auth.is_valid now = true)
    (ht : t ∈ db.labTests) (htp : (t.patient == pid) = true)
    (hts : t.status ≠ TestStatus.completed) :
    ∃ dep, (check_access_and_consult db proId (some pid) now).2
        = CheckOutcome.allowed pat.userName dep
      ∧ t ∈ dep.lab_results
      ∧ t ∉ (consult_dep db pid).lab_results
      ∧ dep.lab_results ≠ (consult_dep db pid).lab_results := by
  have hpid : pat.id = pid := by
    have hp := List.find?_some hpat
    simp only [Bool.and_eq_true, beq_iff_eq] at hp
    exact hp.1
  have hmem1 : t ∈ db.labTests.filter (fun x => x.patient == pat.id) :=
    List.mem_filter.mpr ⟨ht, by rw [hpid]; exact htp⟩
  have hnotmem : t ∉ (consult_dep db pid).lab_results := by
    intro hmem
    have h2 := (List.mem_filter.mp hmem).2
    simp only [Bool.and_eq_true, beq_iff_eq] at h2
    exact hts h2.2
  have hneq : db.labTests.filter (fun x => x.patient == pat.id)
      ≠ (consult_dep db pid).lab_results := by
    intro heq
    rw [heq] at hmem1
    exact hnotmem hmem1
  exact ⟨{ clinical_notes := db.notes.filter (fun n => n.patient == pat.id),
           prescriptions := db.prescriptions.filter (fun p => p.patient == pat.id),
           lab_results := db.labTests.filter (fun x => x.patient == pat.id) },
    by simp [check_access_and_consult, hpat, hauth, hvalid], hmem1, hnotmem, hneq⟩

/-- C10 witness: with a pending test on record, the professional's allowed
DEP contains it while the patient's own aggregation does not. -/
theorem C10_aggregations_differ_on_noncompleted_test_witness :
    ∃ dep, (check_access_and_consult pendingTestDb 2 (some 1) 5).2
        = CheckOutcome.allowed samplePatient.userName dep
      ∧ pendingTest ∈ dep.lab_results
      ∧ pendingTest ∉ (consult_dep pendingTestDb 1).lab_results
      ∧ dep.lab_results ≠ (consult_dep pendingTestDb 1).lab_results :=
  C10_aggregations_differ_on_noncompleted_test pendingTestDb 2 1 5
    samplePatient sampleAuth pendingTest rfl rfl rfl
    (by simp [pendingTestDb]) rfl (by decide)

/-- `grantUpdate` never changes a row's `(patient, professional)` key. -/
theorem pairPred_grantUpdate (p pro e : Nat) (b : AccessAuthorization) :
    pairPred p pro (grantUpdate p pro e b) = pairPred p pro b := by
  unfold grantUpdate
  by_cases h : pairPred p pro b = true
  · rw [if_pos h]
    rfl
  · rw [if_neg h]

/-- `revokeUpdate` never changes a row's `(patient, professional)` key. -/
theorem pairPred_revokeUpdate (p pro pk : Nat) (b : AccessAuthorization) :
    pairPred p pro (revokeUpdate pk b) = pairPred p pro b := by
  unfold revokeUpdate
  by_cases h : (b.id == pk) = true
  · rw [if_pos h]
    rfl
  · rw [if_neg h]

/-- Branch reduction of `grant_access` when the professional resolves, has a
professional role and the pair already has a row: the update branch of
`update_or_create` fires. -/
theorem grant_access_eq_update (db : DB) (p : Nat) (mail : String) (d t : Nat)
    (pro : User)
    (hpro : db.users.find?
      (fun u => strLower u.userMail == strLower mail) = some pro)
    (hrole : pro.userRole = Role.medecin ∨ pro.userRole = Role.laboratoire)
    (a0 : AccessAuthorization)
    (hfind : db.auths.find? (pairPred p pro.id) = some a0) :
    grant_access db p mail d t
      = ({ db with auths := db.auths.map (grantUpdate p pro.id (t + d)) },
         GrantOutcome.granted
           { a0 with is_active := true, expires_at := some (t + d) }) := by
  unfold grant_access
  rw [hpro]
  rcases hrole with h | h <;> simp [h, hfind]

/-- Branch reduction of `grant_access` when the professional resolves, has a
professional role and the pair has no row yet: the create branch fires. -/
theorem grant_access_eq_create (db : DB) (p : Nat) (mail : String) (d t : Nat)
    (pro : User)
    (hpro : db.users.find?
      (fun u => strLower u.userMail == strLower mail) = some pro)
    (hrole : pro.userRole = Role.medecin ∨ pro.userRole = Role.laboratoire)
    (hfind : db.auths.find? (pairPred p pro.id) = none) :
    grant_access db p mail d t
      = ({ db with auths := db.auths ++ [freshGrantRow db p pro.id t (t + d)] },
         GrantOutcome.granted (freshGrantRow db p pro.id t (t + d))) := by
  unfold grant_access
  rw [hpro]
  rcases hrole with h | h <;> simp [h, hfind]

/-- Branch reduction of `revoke_access` when the triple lookup succeeds. -/
theorem revoke_access_eq_found (db : DB) (patientId pk : Nat)
    (b : AccessAuthorization)
    (hfind : db.auths.find?
      (fun a => a.id == pk && a.patient == patientId && a.is_active) = some b) :
    revoke_access db patientId pk
      = ({ db with auths := db.auths.map (revokeUpdate pk) },
         RevokeOutcome.revoked) := by
  unfold revoke_access
  rw [hfind]

/-- Branch reduction of `check_access_and_consult` to a denial when the
grant found for the pair is not valid. -/
theorem check_denied_of_invalid (db : DB) (proId pid now : Nat) (pat : User)
    (a : AccessAuthorization)
    (hpat : db.users.find?
      (fun u => u.id == pid && u.userRole == Role.patient) = some pat)
    (hfind : db.auths.find? (pairPred pat.id proId) = some a)
    (hval : a.is_valid now = false) :
    (check_access_and_consult db proId (some pid) now).2
      = CheckOutcome.denied := by
  simp [check_access_and_consult, hpat, hfind, hval]

/-- C5: granting twice in a row for the same `(patient, professional)` pair —
starting from a state respecting the pair's uniqueness constraint — leaves
exactly one consent row for the pair; that row is active, carries the second
call's expiry `t2 + d2`, and keeps the emergency flag it had before (false,
the model default, when the pair had no row). -/
theorem C5_grant_twice_single_row (db : DB) (p : Nat) (mail : String)
    (d1 t1 d2 t2 : Nat) (pro : User)
    (hpro : db.users.find?
      (fun u => strLower u.userMail == strLower mail) = some pro)
    (hrole : pro.userRole = Role.medecin ∨ pro.userRole = Role.laboratoire)
    (huniq : db.auths.countP (pairPred p pro.id) ≤ 1) :
    ((grant_access (grant_access db p mail d1 t1).1 p mail d2 t2).1.auths.countP
        (pairPred p pro.id) = 1)
    ∧ ∃ a,
      (grant_access (grant_access db p mail d1 t1).1 p mail d2 t2).1.auths.find?
          (pairPred p pro.id) = some a
      ∧ a.is_active = true
      ∧ a.expires_at = some (t2 + d2)
      ∧ (∀ a0, db.auths.find? (pairPred p pro.id) = some a0 →
          a.is_emergency = a0.is_emergency)
      ∧ (db.auths.find? (pairPred p pro.id) = none → a.is_emergency = false) := by
  cases hfind : db.auths.find? (pairPred p pro.id) with
  | some a0 =>
    have hp0 := List.find?_some hfind
    have hmem0 := List.mem_of_find?_eq_some hfind
    have hg1 := grant_access_eq_update db p mail d1 t1 pro hpro hrole a0 hfind
    have hpro1 : ({ db with
        auths := db.auths.map (grantUpdate p pro.id (t1 + d1)) } : DB).users.find?
        (fun u => strLower u.userMail == strLower mail) = some pro := hpro
    have hfind1 : ({ db with
        auths := db.auths.map (grantUpdate p pro.id (t1 + d1)) } : DB).auths.find?
        (pairPred p pro.id) = some (grantUpdate p pro.id (t1 + d1) a0) := by
      show (db.auths.map (grantUpdate p pro.id (t1 + d1))).find?
        (pairPred p pro.id) = _
      rw [find?_map_comm _ _ (pairPred_grantUpdate p pro.id (t1 + d1)) db.auths,
        hfind, Option.map_some']
    have hg2 := grant_access_eq_update _ p mail d2 t2 pro hpro1 hrole _ hfind1
    have hg1fst : (grant_access db p mail d1 t1).1
        = ({ db with
            auths := db.auths.map (grantUpdate p pro.id (t1 + d1)) } : DB) := by
      rw [hg1]
    rw [hg1fst, hg2]
    have hpos : 0 < db.auths.countP (pairPred p pro.id) :=
      List.countP_pos_iff.mpr ⟨a0, hmem0, hp0⟩
    have hcnt : db.auths.countP (pairPred p pro.id) = 1 :=
      Nat.le_antisymm huniq hpos
    constructor
    · show ((db.auths.map (grantUpdate p pro.id (t1 + d1))).map
        (grantUpdate p pro.id (t2 + d2))).countP (pairPred p pro.id) = 1
      rw [countP_map_comm _ _ (pairPred_grantUpdate p pro.id (t2 + d2)),
        countP_map_comm _ _ (pairPred_grantUpdate p pro.id (t1 + d1)), hcnt]
    · refine ⟨{ a0 with is_active := true, expires_at := some (t2 + d2) },
        ?_, rfl, rfl, ?_, ?_⟩
      · show ((db.auths.map (grantUpdate p pro.id (t1 + d1))).map
          (grantUpdate p pro.id (t2 + d2))).find? (pairPred p pro.id) = _
        rw [find?_map_comm _ _ (pairPred_grantUpdate p pro.id (t2 + d2)),
          find?_map_comm _ _ (pairPred_grantUpdate p pro.id (t1 + d1)),
          hfind, Option.map_some', Option.map_some']
        have h1 : grantUpdate p pro.id (t1 + d1) a0
            = { a0 with is_active := true, expires_at := some (t1 + d1) } := by
          simp [grantUpdate, hp0]
        rw [h1]
        have hpair1 : pairPred p pro.id
            { a0 with is_active := true, expires_at := some (t1 + d1) }
            = true := hp0
        simp [grantUpdate, hpair1]
      · intro a0' ha0'
        injection ha0' with h
        rw [← h]
      · intro hnone
        exact Option.noConfusion hnone
  | none =>
    have hg1 := grant_access_eq_create db p mail d1 t1 pro hpro hrole hfind
    have hpaira1 : pairPred p pro.id (freshGrantRow db p pro.id t1 (t1 + d1))
        = true := by
      simp [pairPred, freshGrantRow]
    have hpro1 : ({ db with
        auths := db.auths ++ [freshGrantRow db p pro.id t1 (t1 + d1)] }
          : DB).users.find?
        (fun u => strLower u.userMail == strLower mail) = some pro := hpro
    have hfind1 : ({ db with
        auths := db.auths ++ [freshGrantRow db p pro.id t1 (t1 + d1)] }
          : DB).auths.find?
        (pairPred p pro.id) = some (freshGrantRow db p pro.id t1 (t1 + d1)) := by
      show (db.auths ++ [freshGrantRow db p pro.id t1 (t1 + d1)]).find?
        (pairPred p pro.id) = _
      rw [List.find?_append, hfind]
      simp [List.find?, hpaira1]
    have hg2 := grant_access_eq_update _ p mail d2 t2 pro hpro1 hrole _ hfind1
    have hg1fst : (grant_access db p mail d1 t1).1
        = ({ db with
            auths := db.auths ++ [freshGrantRow db p pro.id t1 (t1 + d1)] }
          : DB) := by
      rw [hg1]
    rw [hg1fst, hg2]
    have hcnt0 : db.auths.countP (pairPred p pro.id) = 0 :=
      List.countP_eq_zero.mpr (List.find?_eq_none.mp hfind)
    constructor
    · show ((db.auths ++ [freshGrantRow db p pro.id t1 (t1 + d1)]).map
        (grantUpdate p pro.id (t2 + d2))).countP (pairPred p pro.id) = 1
      rw [countP_map_comm _ _ (pairPred_grantUpdate p pro.id (t2 + d2)),
        List.countP_append, hcnt0]
      simp [List.countP_cons, hpaira1]
    · refine ⟨{ id := freshAuthId db, patient := p, professional := pro.id,
                granted_at := t1, expires_at := some (t2 + d2),
                is_active := true, is_emergency := false },
        ?_, rfl, rfl, ?_, fun _ => rfl⟩
      · show ((db.auths ++ [freshGrantRow db p pro.id t1 (t1 + d1)]).map
          (grantUpdate p pro.id (t2 + d2))).find? (pairPred p pro.id) = _
        rw [find?_map_comm _ _ (pairPred_grantUpdate p pro.id (t2 + d2)),
          hfind1, Option.map_some']
        simp only [grantUpdate, freshGrantRow]
        rw [if_pos (show pairPred p pro.id
          { id := freshAuthId db, patient := p, professional := pro.id,
            granted_at := t1, expires_at := some (t1 + d1),
            is_active := true, is_emergency := false } = true from hpaira1)]
      · intro a0' ha0'
        exact Option.noConfusion ha0'

/-- C5 witness: the double grant applied to the sample database, whose pair
already has one row carrying `is_emergency = false`. -/
theorem C5_grant_twice_single_row_witness :
    ((grant_access (grant_access sampleDb 1 "doc@x.com" 7 100).1
        1 "doc@x.com" 3 200).1.auths.countP (pairPred 1 sampleDoctor.id) = 1)
    ∧ ∃ a,
      (grant_access (grant_access sampleDb 1 "doc@x.com" 7 100).1
          1 "doc@x.com" 3 200).1.auths.find? (pairPred 1 sampleDoctor.id)
        = some a
      ∧ a.is_active = true
      ∧ a.expires_at = some (200 + 3)
      ∧ (∀ a0, sampleDb.auths.find? (pairPred 1 sampleDoctor.id) = some a0 →
          a.is_emergency = a0.is_emergency)
      ∧ (sampleDb.auths.find? (pairPred 1 sampleDoctor.id) = none →
          a.is_emergency = false) :=
  C5_grant_twice_single_row sampleDb 1 "doc@x.com" 7 100 3 200 sampleDoctor
    (by decide) (Or.inl rfl) (by decide)

/-- Core of the grant-revoke-check scenario: in any state whose pair lookup
yields an active grant `auth1` owned by the patient, revoking `auth1` by its
primary key succeeds, the pair row afterwards is `auth1` deactivated, and a
subsequent access check is denied with the inactive branch firing. -/
theorem revoke_then_check_denies (db1 : DB) (p now : Nat) (pro pat : User)
    (auth1 : AccessAuthorization)
    (hpat : db1.users.find?
      (fun u => u.id == p && u.userRole == Role.patient) = some pat)
    (hpid : pat.id = p)
    (hfind1 : db1.auths.find? (pairPred p pro.id) = some auth1)
    (hauthpat : (auth1.patient == p) = true)
    (hactive : auth1.is_active = true) :
    (revoke_access db1 p auth1.id).2 = RevokeOutcome.revoked
    ∧ (check_access_and_consult (revoke_access db1 p auth1.id).1
        pro.id (some p) now).2 = CheckOutcome.denied
    ∧ (revoke_access db1 p auth1.id).1.auths.find? (pairPred pat.id pro.id)
        = some { auth1 with is_active := false }
    ∧ AccessAuthorization.invalidCause { auth1 with is_active := false } now
        = some DenyCause.inactive := by
  have hmem1 := List.mem_of_find?_eq_some hfind1
  have hq : (fun b : AccessAuthorization =>
      b.id == auth1.id && b.patient == p && b.is_active) auth1 = true := by
    simp [hauthpat, hactive]
  have hsome : (db1.auths.find? (fun b : AccessAuthorization =>
      b.id == auth1.id && b.patient == p && b.is_active)).isSome = true :=
    List.find?_isSome.mpr ⟨auth1, hmem1, hq⟩
  cases hr : db1.auths.find? (fun b : AccessAuthorization =>
      b.id == auth1.id && b.patient == p && b.is_active) with
  | none =>
    rw [hr] at hsome
    exact Bool.noConfusion hsome
  | some b =>
    have hrv := revoke_access_eq_found db1 p auth1.id b hr
    have hrvfst : (revoke_access db1 p auth1.id).1
        = { db1 with auths := db1.auths.map (revokeUpdate auth1.id) } := by
      rw [hrv]
    have hrvsnd : (revoke_access db1 p auth1.id).2 = RevokeOutcome.revoked := by
      rw [hrv]
    have hfind2 : (revoke_access db1 p auth1.id).1.auths.find?
        (pairPred pat.id pro.id) = some { auth1 with is_active := false } := by
      rw [hrvfst, hpid]
      show (db1.auths.map (revokeUpdate auth1.id)).find? (pairPred p pro.id) = _
      rw [find?_map_comm _ _ (pairPred_revokeUpdate p pro.id auth1.id) db1.auths,
        hfind1, Option.map_some']
      simp [revokeUpdate]
    refine ⟨hrvsnd, ?_, hfind2, rfl⟩
    refine check_denied_of_invalid _ pro.id p now pat
      { auth1 with is_active := false } ?_ ?_ rfl
    · rw [hrvfst]
      exact hpat
    · exact hfind2

/-- C6: for any `(patient, professional)` pair, granting and then revoking
the returned grant makes a subsequent access check by that professional
return Deny, and the denial is the inactive case of the access-control
contract: the pair's grant row is still found, and the inactive branch of
the validity test is the one that fires on it. -/
theorem C6_grant_revoke_check_denied_inactive (db : DB) (p : Nat)
    (mail : String) (d t1 now : Nat) (pro pat : User)
    (hpro : db.users.find?
      (fun u => strLower u.userMail == strLower mail) = some pro)
    (hrole : pro.userRole = Role.medecin ∨ pro.userRole = Role.laboratoire)
    (hpat : db.users.find?
      (fun u => u.id == p && u.userRole == Role.patient) = some pat) :
    ∃ auth1 a,
      (grant_access db p mail d t1).2 = GrantOutcome.granted auth1
      ∧ (revoke_access (grant_access db p mail d t1).1 p auth1.id).2
          = RevokeOutcome.revoked
      ∧ (check_access_and_consult
            (revoke_access (grant_access db p mail d t1).1 p auth1.id).1
            pro.id (some p) now).2 = CheckOutcome.denied
      ∧ (revoke_access (grant_access db p mail d t1).1 p auth1.id).1.auths.find?
            (pairPred pat.id pro.id) = some a
      ∧ a.invalidCause now = some DenyCause.inactive := by
  have hpidrole := List.find?_some hpat
  simp only [Bool.and_eq_true, beq_iff_eq] at hpidrole
  have hpid : pat.id = p := hpidrole.1
  cases hfind : db.auths.find? (pairPred p pro.id) with
  | some a0 =>
    have hp0 := List.find?_some hfind
    have hpat0 : (a0.patient == p) = true := by
      simp only [pairPred, Bool.and_eq_true] at hp0
      exact hp0.1
    have hg1 := grant_access_eq_update db p mail d t1 pro hpro hrole a0 hfind
    have hg1fst : (grant_access db p mail d t1).1
        = ({ db with auths := db.auths.map (grantUpdate p pro.id (t1 + d)) }
          : DB) := by
      rw [hg1]
    have hg1snd : (grant_access db p mail d t1).2
        = GrantOutcome.granted
            { a0 with is_active := true, expires_at := some (t1 + d) } := by
      rw [hg1]
    have h1 : grantUpdate p pro.id (t1 + d) a0
        = { a0 with is_active := true, expires_at := some (t1 + d) } := by
      simp [grantUpdate, hp0]
    have hfind1 : ({ db with
        auths := db.auths.map (grantUpdate p pro.id (t1 + d)) } : DB).auths.find?
        (pairPred p pro.id)
        = some { a0 with is_active := true, expires_at := some (t1 + d) } := by
      show (db.auths.map (grantUpdate p pro.id (t1 + d))).find?
        (pairPred p pro.id) = _
      rw [find?_map_comm _ _ (pairPred_grantUpdate p pro.id (t1 + d)) db.auths,
        hfind, Option.map_some', h1]
    obtain ⟨hrvsnd, hck, hfind2, hic⟩ := revoke_then_check_denies
      ({ db with auths := db.auths.map (grantUpdate p pro.id (t1 + d)) } : DB)
      p now pro pat { a0 with is_active := true, expires_at := some (t1 + d) }
      hpat hpid hfind1 hpat0 rfl
    refine ⟨{ a0 with is_active := true, expires_at := some (t1 + d) },
      { a0 with is_active := false, expires_at := some (t1 + d) },
      hg1snd, ?_, ?_, ?_, hic⟩
    · rw [hg1fst]
      exact hrvsnd
    · rw [hg1fst]
      exact hck
    · rw [hg1fst]
      exact hfind2
  | none =>
    have hg1 := grant_access_eq_create db p mail d t1 pro hpro hrole hfind
    have hpaira1 : pairPred p pro.id (freshGrantRow db p pro.id t1 (t1 + d))
        = true := by
      simp [pairPred, freshGrantRow]
    have hg1fst : (grant_access db p mail d t1).1
        = ({ db with
            auths := db.auths ++ [freshGrantRow db p pro.id t1 (t1 + d)] }
          : DB) := by
      rw [hg1]
    have hg1snd : (grant_access db p mail d t1).2
        = GrantOutcome.granted (freshGrantRow db p pro.id t1 (t1 + d)) := by
      rw [hg1]
    have hfind1 : ({ db with
        auths := db.auths ++ [freshGrantRow db p pro.id t1 (t1 + d)] }
          : DB).auths.find? (pairPred p pro.id)
        = some (freshGrantRow db p pro.id t1 (t1 + d)) := by
      show (db.auths ++ [freshGrantRow db p pro.id t1 (t1 + d)]).find?
        (pairPred p pro.id) = _
      rw [List.find?_append, hfind]
      simp [List.find?, hpaira1]
    obtain ⟨hrvsnd, hck, hfind2, hic⟩ := revoke_then_check_denies
      ({ db with auths := db.auths ++ [freshGrantRow db p pro.id t1 (t1 + d)] }
        : DB)
      p now pro pat (freshGrantRow db p pro.id t1 (t1 + d))
      hpat hpid hfind1 (by simp [freshGrantRow]) rfl
    refine ⟨freshGrantRow db p pro.id t1 (t1 + d),
      { freshGrantRow db p pro.id t1 (t1 + d) with is_active := false },
      hg1snd, ?_, ?_, ?_, hic⟩
    · rw [hg1fst]
      exact hrvsnd
    · rw [hg1fst]
      exact hck
    · rw [hg1fst]
      exact hfind2

/-- C6 witness: the scenario run on the sample database for patient 1 and
the sample doctor. -/
theorem C6_grant_revoke_check_denied_inactive_witness :
    ∃ auth1 a,
      (grant_access sampleDb 1 "doc@x.com" 7 100).2 = GrantOutcome.granted auth1
      ∧ (revoke_access (grant_access sampleDb 1 "doc@x.com" 7 100).1
            1 auth1.id).2 = RevokeOutcome.revoked
      ∧ (check_access_and_consult
            (revoke_access (grant_access sampleDb 1 "doc@x.com" 7 100).1
              1 auth1.id).1
            sampleDoctor.id (some 1) 105).2 = CheckOutcome.denied
      ∧ (revoke_access (grant_access sampleDb 1 "doc@x.com" 7 100).1
            1 auth1.id).1.auths.find?
            (pairPred samplePatient.id sampleDoctor.id) = some a
      ∧ a.invalidCause 105 = some DenyCause.inactive :=
  C6_grant_revoke_check_denied_inactive sampleDb 1 "doc@x.com" 7 100 105
    sampleDoctor samplePatient (by decide) (Or.inl rfl) (by decide)

end Tohpitoh
